import Mathlib

/-!
Verification of the WebATM gateway core against its specification.

This file gives a shallow embedding, in Lean 4, of the parts of the WebATM
repository that the checked claims are about:

* the BlueSky-compatible protocol client (`src/WebATM/bluesky_client.py`):
  node-identity encoding, subscription-key construction, active-node
  selection, echo payload normalization, signal/subscriber dispatch;
* the proxy orchestration layer (`src/WebATM/proxy/...`): connection
  health ticks and disconnection cleanup, per-node shape storage with
  bounded retention, throttled data fan-out, command stacking and
  forwarding, and the safe active-node accessor.

Conventions of the embedding:

* Python `bytes` values are `List Nat` (each element a byte value);
  `str` values are Lean `String` where string operations matter and
  `List Nat` (their charmap code points) where only byte identity matters.
* Wall-clock times (`time.time()`) are abstract `Nat` ticks; the handlers
  receive the current tick as an explicit `now` argument.
* Python `dict`s are insertion-ordered association lists, matching
  CPython's ordered-dict semantics (`update` of an existing key keeps its
  position; iteration follows insertion order).  Python `set`s are
  duplicate-free lists.
* Fallible callbacks are total functions returning the effects they
  performed together with an optional raised error; a `try/except` that
  swallows the error is embedded as ignoring that error component.
* Mutating methods become functions `state → args → state × outputs`,
  where outputs (socket options set, events emitted to the downstream
  event channel, timer rescheduling) are collected in explicit lists.
-/

/-! ### Protocol constants (`bluesky_client.py`, module level) -/

/-- `IDLEN = 5`: fixed length of a node identity in bytes. -/
def IDLEN : Nat := 5

/-- `GROUPID_CLIENT = ord("C")`. -/
def GROUPID_CLIENT : Nat := 67

/-- `GROUPID_SIM = ord("S")`. -/
def GROUPID_SIM : Nat := 83

/-- `GROUPID_NOGROUP = ord("N")`. -/
def GROUPID_NOGROUP : Nat := 78

/-- `GROUPID_DEFAULT = 0`. -/
def GROUPID_DEFAULT : Nat := 0

/-- The wildcard byte `ord("*")` used to pad destination-group prefixes. -/
def WILDCARD : Nat := 42

/-! ### Identity encoding (`seqid2idx`, `seqidx2id`, `genid`) -/

/-- `seqid2idx(seqid_byte)`: `val - 128`, clamped from below at `-1`
(`max(-1, ret)`).  The argument is the byte value (Python accepts either
an `int` or a length-1 `bytes`; both denote the same byte value). -/
def seqid2idx (seqid_byte : Nat) : Int :=
  max (-1) ((seqid_byte : Int) - 128)

/-- `seqidx2id(seqidx) = chr(128 + seqidx).encode("charmap")`: the single
byte of the encoded sequence index.  Valid for `-128 ≤ seqidx ≤ 127`
(outside that range the Python code raises). -/
def seqidx2id (seqidx : Int) : Nat :=
  (128 + seqidx).toNat

/-- `genid(group_id, seqidx)` from `bluesky_client.py`.

`group_bytes` is the byte form of the caller's group tag (the Python
function first converts an `int`/`str` argument to bytes via `charmap`).
`rand` models `os.urandom`: `rand n` is the sequence of `n` random bytes
drawn when padding is needed; the code replaces every `*` (42) byte of
the padding with `_` (95). -/
def genid (group_bytes : List Nat) (seqidx : Int) (rand : Nat → List Nat) : List Nat :=
  if IDLEN ≤ group_bytes.length then
    group_bytes.take IDLEN
  else if group_bytes.length < IDLEN - 1 then
    (group_bytes ++
      (rand (IDLEN - 1 - group_bytes.length)).map (fun b => if b = 42 then 95 else b))
      ++ [seqidx2id seqidx]
  else
    group_bytes ++ [seqidx2id seqidx]

/-! ### Subscription keys and the client's subscription state
(`BlueSkyClient._subscribe` / `_unsubscribe` / `actnode`) -/

/-- A `from_group`/`to_group` argument as passed in Python: either an
`int` group constant or a `bytes` identity.  (Strings also occur; their
charmap bytes are what matters, so they are represented by `bytes`.) -/
inductive GroupArg where
  | int (n : Nat)
  | bytes (b : List Nat)
deriving DecidableEq, Repr

/-- `asbytestr(data)`: an `int` becomes its single charmap byte, bytes
pass through unchanged. -/
def asbytestr : GroupArg → List Nat
  | .int n => [n]
  | .bytes b => b

/-- The Python test `from_group == GROUPID_DEFAULT`: only the integer `0`
compares equal to `GROUPID_DEFAULT` (bytes never equal an int). -/
def isDefaultGroup : GroupArg → Bool
  | .int 0 => true
  | _ => false

/-- `bytes.ljust(n, fill)`. -/
def ljustBytes (b : List Nat) (n : Nat) (fill : Nat) : List Nat :=
  b ++ List.replicate (n - b.length) fill

/-- The subscription key
`bto_group.ljust(IDLEN, b"*") + btopic + bfrom_group`
built identically by `_subscribe` and `_unsubscribe`. -/
def mkKey (to_group : List Nat) (topic : List Nat) (from_group_bytes : List Nat) : List Nat :=
  ljustBytes to_group IDLEN WILDCARD ++ topic ++ from_group_bytes

/-- The slice of `BlueSkyClient` state that subscription handling and
active-node selection read and write.  `acttopics` is the
`defaultdict(set)` mapping a topic to the set of `to_group` addressees
that must follow the active node (sets modelled as duplicate-free lists);
`actnodeAutoselect` records whether `self.actnode` is still connected to
the `node_added` signal (the auto-select-first-node behavior). -/
structure ClientState where
  nodes : List (List Nat)
  act_id : Option (List Nat)
  acttopics : List (List Nat × List (List Nat))
  sockRecv : Bool
  actnodeAutoselect : Bool
deriving DecidableEq, Repr

/-- `self.acttopics[topic].add(to_group)` on a `defaultdict(set)`:
creates the topic entry if absent, then adds `to_group` to its set. -/
def addActTopic (ats : List (List Nat × List (List Nat)))
    (topic to_group : List Nat) : List (List Nat × List (List Nat)) :=
  if ats.any (fun p => p.1 = topic) then
    ats.map (fun p =>
      if p.1 = topic then (p.1, if to_group ∈ p.2 then p.2 else p.2 ++ [to_group]) else p)
  else ats ++ [(topic, [to_group])]

/-- `self.acttopics[topic].discard(to_group)`: removes the addressee from
the topic's set when present; the topic key itself is kept. -/
def discardActTopic (ats : List (List Nat × List (List Nat)))
    (topic to_group : List Nat) : List (List Nat × List (List Nat)) :=
  ats.map (fun p => if p.1 = topic then (p.1, p.2.filter (fun g => g ≠ to_group)) else p)

/-- `BlueSkyClient._subscribe(topic, from_group, to_group, actonly)`.

Returns the updated state and the key passed to
`setsockopt(zmq.SUBSCRIBE, ...)`, or `none` when the method returns
without issuing a network-level subscribe (no receive socket, or an
active-only subscription deferred because no active node is set yet;
note the deferral still records the topic/addressee in `acttopics`). -/
def subPriv (st : ClientState) (topic : List Nat) (from_group : GroupArg)
    (to_group : List Nat) (actonly : Bool) : ClientState × Option (List Nat) :=
  if !st.sockRecv then (st, none)
  else if isDefaultGroup from_group then
    if actonly then
      let st1 := { st with acttopics := addActTopic st.acttopics topic to_group }
      match st1.act_id with
      | some a => (st1, some (mkKey to_group topic a))
      | none => (st1, none)
    else (st, some (mkKey to_group topic [GROUPID_SIM]))
  else (st, some (mkKey to_group topic (asbytestr from_group)))

/-- `BlueSkyClient._unsubscribe(topic, from_group, to_group)`.

Returns the updated state and the key passed to
`setsockopt(zmq.UNSUBSCRIBE, ...)`, or `none` when the method returns
without issuing a network-level unsubscribe. -/
def unsubPriv (st : ClientState) (topic : List Nat) (from_group : GroupArg)
    (to_group : List Nat) : ClientState × Option (List Nat) :=
  if !st.sockRecv then (st, none)
  else if isDefaultGroup from_group then
    if st.acttopics.any (fun p => p.1 = topic) then
      let st1 := { st with acttopics := discardActTopic st.acttopics topic to_group }
      match st1.act_id with
      | some a => (st1, some (mkKey to_group topic a))
      | none => (st1, none)
    else (st, some (mkKey to_group topic [GROUPID_SIM]))
  else (st, some (mkKey to_group topic (asbytestr from_group)))

/-- A socket option issued during active-node switching. -/
inductive NetAction where
  | sub (key : List Nat)
  | unsub (key : List Nat)
deriving DecidableEq, Repr

/-- `BlueSkyClient.actnode(newact)`.

Result components: the state after the call, the socket options issued
(in order), the payload of the `actnode_changed` signal when emitted,
and the method's return value.  `newact = none` and the Python-falsy
`newact = b""` take the getter path (`if newact:` fails).  Within the
switch loop `_unsubscribe`/`_subscribe` are called with a byte
`from_group`, so they leave `acttopics` untouched and only produce
keys. -/
def actnode (st : ClientState) (newact : Option (List Nat)) :
    ClientState × List NetAction × Option (List Nat) × Option (List Nat) :=
  match newact with
  | some na =>
    if na.isEmpty then (st, [], none, st.act_id)
    else if na ∉ st.nodes then (st, [], none, none)
    else
      let st1 := if st.act_id.isNone then { st with actnodeAutoselect := false } else st
      if st1.act_id = some na then (st1, [], none, st1.act_id)
      else
        let acts := st1.acttopics.flatMap fun p => p.2.flatMap fun g =>
          (match st1.act_id with
            | some o =>
              if o.isEmpty then []
              else ((unsubPriv st1 p.1 (GroupArg.bytes o) g).2.map NetAction.unsub).toList
            | none => []) ++
          ((subPriv st1 p.1 (GroupArg.bytes na) g false).2.map NetAction.sub).toList
        ({ st1 with act_id := some na }, acts, some na, some na)
  | none => (st, [], none, st.act_id)

/-- The socket options an active-node switch to `na` is expected to
issue, spelled out: for every `(topic, addressee)` pair of the
active-only registry, one unsubscribe keyed to the old active node's
address (when a Python-truthy old active node exists) followed by one
subscribe keyed to `na`'s address. -/
def expectedSwitchActs (st : ClientState) (na : List Nat) : List NetAction :=
  st.acttopics.flatMap fun p => p.2.flatMap fun g =>
    (match st.act_id with
      | some o => if o.isEmpty then [] else [NetAction.unsub (mkKey g p.1 o)]
      | none => []) ++
    [NetAction.sub (mkKey g p.1 na)]

/-- Concrete client state for the C5 counterexample: topic `POLY`
(bytes `[80, 79, 76, 89]`) is registered in the active-only registry and
an active node is set. -/
def c5State : ClientState :=
  { nodes := [[83, 97, 98, 99, 129]]
    act_id := some [83, 97, 98, 99, 129]
    acttopics := [([80, 79, 76, 89], [[]])]
    sockRecv := true
    actnodeAutoselect := false }

/-- Concrete client state for the C1 witness: two tracked nodes, the
first one active, and one active-only binding `POLY → {b""}`. -/
def c1State : ClientState :=
  { nodes := [[83, 1, 1, 1, 129], [83, 2, 2, 2, 130]]
    act_id := some [83, 1, 1, 1, 129]
    acttopics := [([80, 79, 76, 89], [[]])]
    sockRecv := true
    actnodeAutoselect := false }

/-! ### Node-scoped shape storage (`proxy/handlers/shapes.py`,
`on_poly_received`) -/

/-- One step of Python `dict.update`: assigning `d[k] = v` keeps an
existing key at its original position (CPython ordered-dict semantics)
and appends a new key at the end. -/
def dictInsert {V : Type} (d : List (String × V)) (k : String) (v : V) :
    List (String × V) :=
  if d.any (fun kv => kv.1 = k) then
    d.map (fun kv => if kv.1 = k then (k, v) else kv)
  else d ++ [(k, v)]

/-- Python `base.update(upd)`: fold `dictInsert` over the update's
entries in order. -/
def dictUpdate {V : Type} (base upd : List (String × V)) : List (String × V) :=
  upd.foldl (fun acc kv => dictInsert acc kv.1 kv.2) base

/-- The 5-shape limit of `on_poly_received`: when a node's stored shape
dict holds more than 5 entries, `poly_names[:-5]` (all but the last 5
keys in insertion order) are deleted. -/
def applyShapeLimit {V : Type} (d : List (String × V)) : List (String × V) :=
  if 5 < d.length then d.drop (d.length - 5) else d

/-- The shape dict for one node after the store step of
`on_poly_received` but before the limit: a reset/replace/change action
type (`R`/`X`/`C`) replaces the stored dict with the incoming one
(empty incoming data leaves an empty dict), any other action type
merges the incoming entries into the existing dict. -/
def mergedPolys {V : Type} (store new : List (String × V)) (isReset : Bool) :
    List (String × V) :=
  if isReset then new else dictUpdate store new

/-- One node's polygon (or polyline) storage after `on_poly_received`:
the merged dict with the 5-shape limit applied. -/
def onPolyStore {V : Type} (store new : List (String × V)) (isReset : Bool) :
    List (String × V) :=
  applyShapeLimit (mergedPolys store new isReset)

/-- Seven single-polygon insertions with distinct names into one node's
initially empty storage, in order `A, B, ..., G`. -/
def sevenPolyInserts : List (String × Nat) :=
  List.foldl (fun acc e => onPolyStore acc [e] false) []
    [("A", 1), ("B", 2), ("C", 3), ("D", 4), ("E", 5), ("F", 6), ("G", 7)]

/-! ### Safe active-node accessor (`proxy/managers/node_manager.py`,
`NodeManager._get_safe_active_node`) -/

/-- One hexadecimal digit character, lowercase, as produced by Python's
`bytes.hex()`. -/
def hexDigitChar (n : Nat) : Char :=
  if n < 10 then Char.ofNat (48 + n) else Char.ofNat (87 + n)

/-- Python `bytes.hex()`: two lowercase hex digits per byte. -/
def bytesHex (b : List Nat) : String :=
  String.mk (b.flatMap fun x => [hexDigitChar (x / 16), hexDigitChar (x % 16)])

/-- The proxy state read by `_get_safe_active_node`: the running flag,
the health flag, the tracked-node dict (represented by its hex-string
keys), and the network client (`none` when not constructed; otherwise
carrying its `act_id`, itself `none` when unset). -/
structure SafeNodeState where
  running : Bool
  was_connected : Bool
  tracked_nodes : List String
  client : Option (Option (List Nat))
deriving DecidableEq, Repr

/-- Python truthiness of `self.proxy.bluesky_client.act_id`: falsy when
`None` or empty bytes. -/
def actIdFalsy : Option (List Nat) → Bool
  | none => true
  | some [] => true
  | some (_ :: _) => false

/-- `NodeManager._get_safe_active_node()`: returns the active node's hex
id only when the proxy is running, was connected, has at least one
tracked node, the client exists and carries a truthy `act_id`, and that
id's hex form is a tracked-node key; otherwise `none`.  (A missing
client makes the `hasattr` test fail, which also yields `none`.) -/
def getSafeActiveNode (st : SafeNodeState) : Option String :=
  match st.client with
  | none => none
  | some act =>
    if st.running = false ∨ st.was_connected = false ∨
        st.tracked_nodes.length = 0 ∨ actIdFalsy act = true then none
    else
      match act with
      | some raw =>
        if bytesHex raw ∈ st.tracked_nodes then some (bytesHex raw) else none
      | none => none

/-- Concrete state for the C9 witness. -/
def c9State : SafeNodeState :=
  { running := true
    was_connected := true
    tracked_nodes := ["5301020381"]
    client := some (some [83, 1, 2, 3, 129]) }

/-! ### Echo payload normalization
(`BlueSkyClient._process_data_message`, `ECHO` branch) -/

/-- A decoded msgpack value as far as the `ECHO` branch distinguishes
payload shapes: sequences (`list`/`tuple`), mappings, and the scalar
kinds whose Python `str()` form the fallback branch uses. -/
inductive MpVal where
  | str (s : String)
  | int (n : Int)
  | bool (b : Bool)
  | nil
  | list (l : List MpVal)
  | map (entries : List (String × MpVal))

/-- One positional argument handed to the `ECHO` subscribers: either a
payload value or the raw sender identity bytes from the frame header. -/
inductive EmitArg where
  | val (v : MpVal)
  | bytes (b : List Nat)

/-- Python `dict.get(key)` on the decoded mapping (association list with
the first binding winning). -/
def pyDictGet (entries : List (String × MpVal)) (key : String) : Option MpVal :=
  (entries.find? (fun kv => kv.1 = key)).map (fun kv => kv.2)

/-- The `ECHO` branch of `_process_data_message`: the positional
arguments passed to `subscriber.emit("ECHO", ...)` for a decoded payload
`data` and the frame-header sender.  Sequences of length ≥ 3 pass
through unchanged; a 2-element sequence gets the header sender appended;
a 1-element sequence gets flags `0` and the header sender; an empty
sequence becomes `("", 0, sender)`; a mapping supplies
`text`/`flags`/`sender_id` with defaults `""`, `0`, and the header
sender; any other payload is `str(data)` with flags `0` and the header
sender. -/
def echoDispatch (data : MpVal) (sender : List Nat) : List EmitArg :=
  match data with
  | .list [] => [.val (.str ""), .val (.int 0), .bytes sender]
  | .list [a] => [.val a, .val (.int 0), .bytes sender]
  | .list [a, b] => [.val a, .val b, .bytes sender]
  | .list l => l.map EmitArg.val
  | .map entries =>
      let text := (pyDictGet entries "text").getD (.str "")
      let flags := (pyDictGet entries "flags").getD (.int 0)
      let snd : EmitArg :=
        match pyDictGet entries "sender_id" with
        | some v => .val v
        | none => .bytes sender
      [.val text, .val flags, snd]
  | .str s => [.val (.str s), .val (.int 0), .bytes sender]
  | .int n => [.val (.str (toString n)), .val (.int 0), .bytes sender]
  | .bool b =>
      [.val (.str (if b then "True" else "False")), .val (.int 0), .bytes sender]
  | .nil => [.val (.str "None"), .val (.int 0), .bytes sender]

/-! ### Signal and subscriber dispatch
(`BlueSkySignal.emit`, `BlueSkySubscriber.emit`) -/

/-- `BlueSkySignal.emit`: iterate over the connected callbacks in
registration order, invoking each inside `try/except Exception`; a
raised exception is logged and the loop continues with the next
callback.  A callback is embedded as a total function returning the side
effects it performed together with the error it raised, if any; the
dispatch loop accumulates the effects and never consults the error
component (that is the embedding of the swallowed exception). -/
def signalEmit {α T E : Type} (callbacks : List (α → List T × Option E))
    (x : α) : List T :=
  callbacks.foldl (fun acc cb => acc ++ (cb x).1) []

/-- `BlueSkySubscriber.emit`: look up the topic's callback list
(`self.subscribers.get(topic, [])`) and run the same
invoke-each-inside-try loop over it. -/
def subscriberEmit {α T E : Type}
    (subscribers : List (String × List (α → List T × Option E)))
    (topic : String) (x : α) : List T :=
  signalEmit (((subscribers.find? (fun p => p.1 = topic)).map
    (fun p => p.2)).getD []) x

/-! ### Command stacking and draining (`BlueSkyStack.stack` /
`BlueSkyStack.commands`, `CommandProcessor._process_stack_commands`) -/

/-- Split a character list at every character satisfying `p`, keeping
empty pieces (the list-level core of Python `str.split(sep)`). -/
def splitByPred (p : Char → Bool) (l : List Char) : List (List Char) :=
  l.foldr
    (fun ch acc =>
      match acc with
      | [] => [[ch]]
      | cur :: rest => if p ch then [] :: cur :: rest else (ch :: cur) :: rest)
    [[]]

/-- Python `str.strip()` (ASCII whitespace). -/
def pyStrip (s : String) : String :=
  String.mk
    (((s.data.dropWhile Char.isWhitespace).reverse.dropWhile
      Char.isWhitespace).reverse)

/-- Python `str.upper()` (ASCII; command words here are ASCII). -/
def pyUpper (s : String) : String :=
  String.mk (s.data.map Char.toUpper)

/-- Python `" ".join(parts)`. -/
def joinSpace : List String → String
  | [] => ""
  | [w] => w
  | w :: ws => w ++ " " ++ joinSpace ws

/-- Python `str.split()` with no separator: split on runs of whitespace,
discarding empty pieces. -/
def pyWords (s : String) : List String :=
  ((splitByPred Char.isWhitespace s.data).filter
    (fun w => ¬ w.isEmpty)).map (fun w => String.mk w)

/-- Python `str.split(";")`. -/
def pySplitSemi (s : String) : List String :=
  (splitByPred (fun c => c = ';') s.data).map (fun w => String.mk w)

/-- The entries `BlueSkyStack.stack(cmdline)` appends to the queue: the
whole line is stripped and, when non-empty, split on `;` with each piece
stripped.  (Each entry also records the sender id, which the drain does
not use for user commands; it is omitted here.) -/
def stackSplit (cmdline : String) : List String :=
  if pyStrip cmdline = "" then []
  else (pySplitSemi (pyStrip cmdline)).map (fun line => pyStrip line)

/-- `BlueSkyStack.stack(cmdline)` acting on the queue: append the
entries in order. -/
def stackCmd (q : List String) (cmdline : String) : List String :=
  if pyStrip cmdline = "" then q
  else (pySplitSemi (pyStrip cmdline)).foldl
    (fun acc line => acc ++ [pyStrip line]) q

/-- `CommandProcessor._execute_local_command(cmd, argstring)`. -/
def executeLocalCommand (cmd argstring : String) : Bool × String :=
  if cmd = "HELP" ∨ cmd = "?" then
    (true,
      if argstring = "" then
        "BlueSky Web Client: Enter commands to control simulation"
      else "Help for " ++ argstring ++ ": Command forwarded to server")
  else (false, "Local command " ++ cmd ++ " not implemented in web client")

/-- An observable action of the drain loop: an echo pushed to the web
clients, or a `STACK` message forwarded to the cluster. -/
inductive CmdAction where
  | echo (text : String) (flags : Nat)
  | forwardCmd (target : List Nat) (cmdline : String)
deriving DecidableEq, Repr

/-- `self.proxy.bluesky_client.act_id or self.proxy.bluesky_client.server_id`:
the forwarding target is the active node when Python-truthy, else the
default server address. -/
def resolveTarget (act_id : Option (List Nat)) (server_id : List Nat) : List Nat :=
  match act_id with
  | some (b :: bs) => b :: bs
  | _ => server_id

/-- One iteration of `_process_stack_commands` on a popped entry: split
into words; skip entries with no words; execute `HELP`/`?` locally and
emit the resulting echo (with the not-success adjustments of the code,
which for these two commands never trigger); forward every other entry
unchanged to the resolved target with no local echo.  (`send` reports
transport failure as a boolean and the model records the forward that is
issued.) -/
def processEntry (act_id : Option (List Nat)) (server_id : List Nat)
    (entry : String) : List CmdAction :=
  match pyWords (pyStrip entry) with
  | [] => []
  | cmd0 :: args =>
    let cmd := pyUpper cmd0
    let argstring := joinSpace args
    if cmd = "HELP" ∨ cmd = "?" then
      let res := executeLocalCommand cmd argstring
      let pair : String × Nat :=
        if res.1 then (res.2, 0)
        else if argstring = "" then
          ((if res.2 ≠ "" then res.2 else cmd ++ ": Command help text"), 0)
        else
          ("Syntax error: " ++ (if res.2 ≠ "" then res.2 else "Usage: " ++ cmd), 2)
      if pair.1 ≠ "" then [CmdAction.echo pair.1 pair.2] else []
    else
      [CmdAction.forwardCmd (resolveTarget act_id server_id) entry]

/-- The full drain (`for cmdline in self...stack.commands()`): pop the
queued entries FIFO and process each. -/
def drainQueue (act_id : Option (List Nat)) (server_id : List Nat)
    (q : List String) : List CmdAction :=
  q.flatMap (processEntry act_id server_id)

/-! ### Throttled data fan-out (`proxy/handlers/simulation.py`,
`proxy/handlers/echo.py`)

Numeric telemetry fields are carried as `Int` (the handlers' `float()` /
`int()` conversions only coerce the carried number; the claims here
concern caching and emission timing, not arithmetic), and the traffic
payload is carried opaquely (its `make_json_serializable` conversion is
a pure reshaping of the same decoded value).  The dispatcher always
passes the frame-header sender to the SIMINFO handler, so `sender` is
modelled as the already-hex-converted string. -/

/-- The positional arguments of `on_siminfo_received` (each may be the
msgpack `nil`). -/
structure SimInfoIn where
  speed : Option Int
  simdt : Option Int
  simt : Option Int
  simutc : Option String
  ntraf : Option Int
  state : Option Int
  scenname : Option String
deriving DecidableEq, Repr

/-- The `sim_data` snapshot dict built by `on_siminfo_received`. -/
structure SimSnapshot where
  speed : Int
  simdt : Int
  simt : Int
  simutc : String
  ntraf : Int
  state : Int
  scenname : String
  sender_id : Option String
deriving DecidableEq, Repr

/-- The defaulting conversions of `on_siminfo_received` (`None` becomes
`0.0` / `""`). -/
def mkSimData (i : SimInfoIn) (sender : Option String) : SimSnapshot :=
  { speed := i.speed.getD 0
    simdt := i.simdt.getD 0
    simt := i.simt.getD 0
    simutc := i.simutc.getD ""
    ntraf := i.ntraf.getD 0
    state := i.state.getD 0
    scenname := i.scenname.getD ""
    sender_id := sender }

/-- The cached traffic table: the cleared table pushed on
reset/act-change, or an opaque decoded value. -/
inductive TrafficSnapshot where
  | empty
  | val (d : Nat)
deriving DecidableEq, Repr

/-- The `echo_data` snapshot dict built by the `echo` handler (`sender`
already passed through `safe_decode`). -/
structure EchoSnapshot where
  text : String
  flags : Int
  timestamp : Nat
  sender : Option String
deriving DecidableEq, Repr

/-- An event pushed to the downstream event channel by the fan-out
handlers. -/
inductive FanEvent where
  | siminfo (s : SimSnapshot)
  | acdata (t : TrafficSnapshot)
  | echoEv (e : EchoSnapshot)
  | nodeInfo
deriving DecidableEq, Repr

/-- The proxy state read and written by the three fan-out handlers.
`tracked_nodes` is represented by its keys (the per-entry status/time
strings the SIMINFO handler also refreshes do not interact with caching
or throttling). -/
structure FanoutState where
  allow_reconnection : Bool
  socketio : Bool
  connected_clients : Nat
  clientPresent : Bool
  last_successful_update : Nat
  sim_data : Option SimSnapshot
  traffic_data : Option TrafficSnapshot
  echo_data : Option EchoSnapshot
  tracked_nodes : List String
  last_siminfo_emit : Nat
  last_acdata_emit : Nat
  siminfo_interval : Nat
  acdata_interval : Nat
deriving DecidableEq, Repr

/-- `on_siminfo_received`: ignore the frame when disconnected; always
refresh `last_successful_update` and the `sim_data` snapshot; emit an
occasional `node_info` update (every 5 sim-seconds for a tracked
sender); push `siminfo` to the event channel only when consumers exist
and at least `siminfo_interval` has elapsed since the last push, in
which case the last-emit timestamp advances to `now`. -/
def onSiminfoReceived (st : FanoutState) (i : SimInfoIn) (sender : String)
    (now : Nat) : FanoutState × List FanEvent :=
  if st.allow_reconnection = false then (st, [])
  else
    let sd := mkSimData i (some sender)
    let st1 := { st with last_successful_update := now, sim_data := some sd }
    let nodeEvs :=
      if sender ≠ "" ∧ sender ∈ st.tracked_nodes ∧ (i.simt.getD 0) % 5 = 0 ∧
          st.socketio = true ∧ 0 < st.connected_clients then
        [FanEvent.nodeInfo]
      else []
    if st.socketio = true ∧ 0 < st.connected_clients ∧
        st.last_siminfo_emit + st.siminfo_interval ≤ now then
      ({ st1 with last_siminfo_emit := now }, nodeEvs ++ [FanEvent.siminfo sd])
    else (st1, nodeEvs)

/-- `on_acdata_received`: ignore the frame when disconnected; when the
client's dispatch context carries a reset/act-change action, replace the
cached table with the cleared table and push it immediately; otherwise
always refresh `last_successful_update` and the cached table, and push
`acdata` only when consumers exist and at least `acdata_interval` has
elapsed since the last push. -/
def onAcdataReceived (st : FanoutState) (ctxAction : Option String) (d : Nat)
    (now : Nat) : FanoutState × List FanEvent :=
  if st.allow_reconnection = false then (st, [])
  else if st.clientPresent = true ∧
      (ctxAction = some "RESET" ∨ ctxAction = some "ACTCHANGE") then
    let st1 := { st with traffic_data := some TrafficSnapshot.empty }
    if st.socketio = true ∧ 0 < st.connected_clients then
      (st1, [FanEvent.acdata TrafficSnapshot.empty])
    else (st1, [])
  else
    let st1 := { st with
      last_successful_update := now
      traffic_data := some (TrafficSnapshot.val d) }
    if st.socketio = true ∧ 0 < st.connected_clients ∧
        st.last_acdata_emit + st.acdata_interval ≤ now then
      ({ st1 with last_acdata_emit := now },
        [FanEvent.acdata (TrafficSnapshot.val d)])
    else (st1, [])

/-- The `echo_data` dict built by the `echo` handler, with its `None`
defaults. -/
def mkEchoData (text : Option String) (flags : Option Int)
    (sender : Option String) (now : Nat) : EchoSnapshot :=
  { text := text.getD ""
    flags := flags.getD 0
    timestamp := now
    sender := sender }

/-- The `echo` handler: ignore the frame when disconnected; always
refresh `last_successful_update` and the `echo_data` snapshot; push
`echo` immediately whenever consumers exist — no interval check. -/
def onEchoReceived (st : FanoutState) (text : Option String)
    (flags : Option Int) (sender : Option String) (now : Nat) :
    FanoutState × List FanEvent :=
  if st.allow_reconnection = false then (st, [])
  else
    let ed := mkEchoData text flags sender now
    let st1 := { st with last_successful_update := now, echo_data := some ed }
    if st.socketio = true ∧ 0 < st.connected_clients then
      (st1, [FanEvent.echoEv ed])
    else (st1, [])

/-- Concrete fan-out state for the C6 witness. -/
def c6State : FanoutState :=
  { allow_reconnection := true
    socketio := true
    connected_clients := 1
    clientPresent := true
    last_successful_update := 0
    sim_data := none
    traffic_data := none
    echo_data := none
    tracked_nodes := []
    last_siminfo_emit := 0
    last_acdata_emit := 0
    siminfo_interval := 1
    acdata_interval := 1 }

/-- Concrete SIMINFO arguments for the C6 witness. -/
def c6Sim : SimInfoIn :=
  { speed := some 1, simdt := none, simt := some 3, simutc := none,
    ntraf := some 2, state := none, scenname := some "demo" }

/-! ### Connection health tick and disconnection
(`proxy/managers/connection_manager.py`: `_start_network_timer`,
`_handle_disconnection`, `close`) -/

/-- `self.connection_timeout = 10.0` seconds (`BlueSkyProxy.__init__`). -/
def connectionTimeoutInit : Nat := 10

/-- `self.max_connection_failures = 3` (`BlueSkyProxy.__init__`). -/
def maxConnectionFailuresInit : Nat := 3

/-- The proxy state the poll tick and the disconnect path read and
write.  The network client is summarized by its presence, whether its
sockets are open, and its `act_id`; `raised` input of the tick models an
exception escaping the `try` body of the timer callback. -/
structure ProxyState where
  running : Bool
  allow_reconnection : Bool
  was_connected : Bool
  clientPresent : Bool
  clientOpen : Bool
  clientActId : Option (List Nat)
  connection_failures : Nat
  max_connection_failures : Nat
  last_successful_update : Nat
  connection_timeout : Nat
  tracked_nodes : List String
  tracked_servers : List String
  traffic_data : Option TrafficSnapshot
  sim_data : Option SimSnapshot
  echo_data : Option EchoSnapshot
  poly_data_by_node : List (String × List (String × Nat))
  polyline_data_by_node : List (String × List (String × Nat))
  last_update : Nat
  last_siminfo_emit : Nat
  last_acdata_emit : Nat
  last_echo_emit : Nat
  current_bbox : Option (Int × Int × Int × Int)
  aircraft_counter : Nat
  cmddict : List (String × String)
  socketio : Bool
  connected_clients : Nat
deriving DecidableEq, Repr

/-- An event pushed to web clients along the disconnect path. -/
inductive ProxyEvent where
  | connStatus (connected : Bool)
  | clearedData
  | nodeInfoEv
deriving DecidableEq, Repr

/-- `_emit_connection_status(connected)`: pushes only when the event
channel exists and at least one consumer is connected. -/
def emitConnectionStatus (st : ProxyState) (b : Bool) : List ProxyEvent :=
  if st.socketio = true ∧ 0 < st.connected_clients then
    [ProxyEvent.connStatus b]
  else []

/-- `ConnectionManager.close()`: disable reconnection, close the network
client's sockets (when a client exists, which also clears its node sets
and `act_id`), reset the connection monitoring fields, clear tracked
nodes/servers, the active-node reference, the data caches, the emission
timestamps, the map bounds, the aircraft counter, and the command
dictionary. -/
def connClose (st : ProxyState) (now : Nat) : ProxyState :=
  { st with
    allow_reconnection := false
    clientOpen := if st.clientPresent then false else st.clientOpen
    was_connected := false
    last_successful_update := now
    tracked_nodes := []
    tracked_servers := []
    clientActId := if st.clientPresent then none else st.clientActId
    traffic_data := none
    sim_data := none
    echo_data := none
    last_update := 0
    last_siminfo_emit := 0
    last_acdata_emit := 0
    last_echo_emit := 0
    current_bbox := none
    aircraft_counter := 0
    cmddict := [] }

/-- `ConnectionManager._handle_disconnection(reason)`: when still marked
connected, clear the flag and emit a `connection_status(False)`
notification; stop running, disable reconnection, reset the failure
counter, clear the client's active-node reference, clear the tracked
node and server sets and every cached snapshot (traffic, sim, echo,
per-node polygon and polyline stores); push cleared-data and node-info
updates to any connected consumers; finally run `close()`. -/
def handleDisconnection (st : ProxyState) (now : Nat) :
    ProxyState × List ProxyEvent :=
  let part1 : ProxyState × List ProxyEvent :=
    if st.was_connected = true then
      ({ st with was_connected := false }, emitConnectionStatus st false)
    else (st, [])
  let st1 := part1.1
  let st2 := { st1 with
    running := false
    allow_reconnection := false
    connection_failures := 0
    clientActId := if st1.clientPresent then none else st1.clientActId
    tracked_nodes := []
    tracked_servers := []
    traffic_data := none
    sim_data := none
    echo_data := none
    poly_data_by_node := []
    polyline_data_by_node := [] }
  let evs2 :=
    if st2.socketio = true ∧ 0 < st2.connected_clients then
      [ProxyEvent.clearedData, ProxyEvent.nodeInfoEv]
    else []
  (connClose st2 now, part1.2 ++ evs2)

/-- The fall-through tail of the timer callback: the aggressive
silence-timeout check, then rescheduling.  Returns the state, the
events pushed, and whether a next tick is scheduled. -/
def tickTimeoutCheck (st : ProxyState) (evs : List ProxyEvent) (now : Nat) :
    ProxyState × List ProxyEvent × Bool :=
  if st.was_connected = true ∧
      st.connection_timeout + st.last_successful_update < now then
    let r := handleDisconnection st now
    (r.1, evs ++ r.2, false)
  else (st, evs, st.running && st.allow_reconnection)

/-- One tick of the 20 ms network timer (`network_timer_callback`).
`raised = true` means the `try` body raised (transport failure): the
consecutive-failure counter is incremented and, at the maximum,
the disconnect path runs and no further tick is scheduled.  On a
normal pass the counter resets; nodes appearing flips the health flag
on with a notification; no nodes while previously connected past the
timeout flips it off, notifies, and disconnects; otherwise the
silence-timeout check and rescheduling run.  A tick with the guard
(`running and allow_reconnection and bluesky_client`) false does
nothing and schedules nothing. -/
def networkTick (st : ProxyState) (now : Nat) (raised : Bool) :
    ProxyState × List ProxyEvent × Bool :=
  if st.running = true ∧ st.allow_reconnection = true ∧
      st.clientPresent = true then
    if raised then
      let st1 := { st with connection_failures := st.connection_failures + 1 }
      if st1.max_connection_failures ≤ st1.connection_failures then
        let r := handleDisconnection st1 now
        (r.1, r.2, false)
      else (st1, [], st1.running && st1.allow_reconnection)
    else
      let st1 := { st with connection_failures := 0 }
      if st1.tracked_nodes.isEmpty = false ∧ st1.was_connected = false then
        let st2 := { st1 with was_connected := true }
        tickTimeoutCheck st2 (emitConnectionStatus st2 true) now
      else if st1.tracked_nodes.isEmpty = true ∧ st1.was_connected = true then
        if st1.connection_timeout + st1.last_successful_update < now then
          let st2 := { st1 with was_connected := false }
          let r := handleDisconnection st2 now
          (r.1, emitConnectionStatus st2 false ++ r.2, false)
        else tickTimeoutCheck st1 [] now
      else tickTimeoutCheck st1 [] now
  else (st, [], false)

/-- Concrete proxy state for the C3 witness: connected with the default
thresholds (`timeout 10 s`, `max failures 3`) and a consumer attached;
the failure counter already sits at the threshold, so one more transport
failure makes the count exceed 3 (spec scenario C: four consecutive
failures against threshold 3). -/
def c3State : ProxyState :=
  { running := true
    allow_reconnection := true
    was_connected := true
    clientPresent := true
    clientOpen := true
    clientActId := some [83, 1, 1, 1, 129]
    connection_failures := 3
    max_connection_failures := maxConnectionFailuresInit
    last_successful_update := 0
    connection_timeout := connectionTimeoutInit
    tracked_nodes := ["5301010181"]
    tracked_servers := ["5301010180"]
    traffic_data := some (TrafficSnapshot.val 1)
    sim_data := none
    echo_data := none
    poly_data_by_node := [("5301010181", [("P1", 1)])]
    polyline_data_by_node := []
    last_update := 0
    last_siminfo_emit := 0
    last_acdata_emit := 0
    last_echo_emit := 0
    current_bbox := none
    aircraft_counter := 0
    cmddict := [("HELP", "HELP [command]: Display help information")]
    socketio := true
    connected_clients := 1 }

/-! ### Theorems -/

/-- With the receive socket open, `_subscribe` with a byte `from_group`
issues exactly the key for that address and leaves the state unchanged. -/
theorem subPriv_bytes_key (st : ClientState) (t b g : List Nat)
    (h : st.sockRecv = true) :
    subPriv st t (GroupArg.bytes b) g false = (st, some (mkKey g t b)) := by
  simp [subPriv, h, isDefaultGroup, asbytestr]

/-- With the receive socket open, `_unsubscribe` with a byte `from_group`
issues exactly the key for that address and leaves the state unchanged. -/
theorem unsubPriv_bytes_key (st : ClientState) (t b g : List Nat)
    (h : st.sockRecv = true) :
    unsubPriv st t (GroupArg.bytes b) g = (st, some (mkKey g t b)) := by
  simp [unsubPriv, h, isDefaultGroup, asbytestr]

/-- **C4.** For every sequence index `i` in the valid range `-1 ≤ i ≤ 127`
(the range representable by the clamped decoder; servers sit at index 0
and simulation nodes at positive indices), decoding the encoded sequence
byte returns `i`; and for every group tag and every random padding source
(`os.urandom` returns exactly as many bytes as requested), the generated
identity has length exactly `IDLEN = 5`. -/
theorem identity_roundtrip_and_genid_len :
    (∀ i : Int, -1 ≤ i → i ≤ 127 → seqid2idx (seqidx2id i) = i) ∧
    (∀ (group_bytes : List Nat) (seqidx : Int) (rand : Nat → List Nat),
      (∀ n, (rand n).length = n) →
      (genid group_bytes seqidx rand).length = IDLEN) := by
  constructor
  · intro i h1 _h2
    unfold seqid2idx seqidx2id
    have hnn : (0 : Int) ≤ 128 + i := by omega
    rw [Int.toNat_of_nonneg hnn]
    omega
  · intro group_bytes seqidx rand hrand
    unfold genid IDLEN
    by_cases h1 : 5 ≤ group_bytes.length
    · simp only [IDLEN] at h1
      simp [h1, List.length_take]
    · simp only [IDLEN] at h1
      by_cases h2 : group_bytes.length < 5 - 1
      · simp [h1, h2, List.length_append, List.length_map, hrand]
        omega
      · simp [h1, h2, List.length_append]
        omega

/-- Witness for C4: concrete instantiation at `i = 3`, group tag `b"N"`,
and a padding source producing `_` bytes. -/
theorem identity_roundtrip_and_genid_len_witness :
    seqid2idx (seqidx2id 3) = 3 ∧
    (genid [GROUPID_NOGROUP] 1 (fun n => List.replicate n 95)).length = IDLEN := by
  refine ⟨identity_roundtrip_and_genid_len.1 3 (by decide) (by decide),
          identity_roundtrip_and_genid_len.2 [GROUPID_NOGROUP] 1 _ ?_⟩
  intro n
  exact List.length_replicate n 95


/-- **C1.** `actnode` (active-node selection): an id not in the tracked
node set is rejected with no state change and no network action or
notification; a first successful selection (no previous active node)
disables auto-selection, and `actnode` never re-enables it; selecting
the current active node again does nothing; and when the target differs
from the current active node, exactly one unsubscribe from the old
active node's address (when a truthy old active node exists) and exactly
one subscribe to the new node's address are issued per
(topic, addressee) pair of the active-only registry, after which the new
active node is committed and the `actnode_changed` notification carries
it. -/
theorem actnode_selection_spec :
    (∀ st na, na ∉ st.nodes →
      (actnode st (some na)).1 = st ∧ (actnode st (some na)).2.1 = [] ∧
      (actnode st (some na)).2.2.1 = none) ∧
    (∀ st na, na ∈ st.nodes → na ≠ [] → st.act_id = none →
      ((actnode st (some na)).1).actnodeAutoselect = false) ∧
    (∀ st x, ((actnode st x).1).actnodeAutoselect = true →
      st.actnodeAutoselect = true) ∧
    (∀ st na, na ∈ st.nodes → na ≠ [] → st.act_id = some na →
      actnode st (some na) = (st, [], none, some na)) ∧
    (∀ st na, na ∈ st.nodes → na ≠ [] → st.act_id ≠ some na →
      st.sockRecv = true →
      (actnode st (some na)).2.1 = expectedSwitchActs st na ∧
      ((actnode st (some na)).1).act_id = some na ∧
      (actnode st (some na)).2.2.1 = some na) := by
  refine ⟨?_, ?_, ?_, ?_, ?_⟩
  · intro st na hnotin
    rcases na with _ | ⟨b, bs⟩
    · simp [actnode]
    · simp [actnode, hnotin]
  · intro st na hmem hemp hnone
    rcases na with _ | ⟨b, bs⟩
    · exact absurd rfl hemp
    · simp [actnode, hmem, hnone]
  · intro st x h
    rcases x with _ | na
    · exact h
    · rcases na with _ | ⟨b, bs⟩
      · simpa [actnode] using h
      · by_cases hmem : (b :: bs) ∈ st.nodes
        · rcases hid : st.act_id with _ | o
          · simp [actnode, hmem, hid] at h
          · have hnn : st.act_id.isNone = false := by rw [hid]; rfl
            by_cases hsame : o = b :: bs
            · simpa [actnode, hmem, hid, hnn, hsame] using h
            · simpa [actnode, hmem, hid, hnn, hsame] using h
        · simpa [actnode, hmem] using h
  · intro st na hmem hemp hsame
    have hnn : st.act_id.isNone = false := by rw [hsame]; rfl
    rcases na with _ | ⟨b, bs⟩
    · exact absurd rfl hemp
    · simp [actnode, hmem, hsame, hnn]
  · intro st na hmem hemp hdiff hsock
    rcases na with _ | ⟨b, bs⟩
    · exact absurd rfl hemp
    · rcases hid : st.act_id with _ | o
      · simp [actnode, hmem, hid, expectedSwitchActs, subPriv_bytes_key, hsock]
      · rw [hid] at hdiff
        have ho : o ≠ b :: bs := fun hh => hdiff (by rw [hh])
        have hnn : st.act_id.isNone = false := by rw [hid]; rfl
        simp [actnode, hmem, hid, hnn, ho, expectedSwitchActs,
          subPriv_bytes_key, unsubPriv_bytes_key, hsock]

/-- Witness for C1: in `c1State` (active node `N1`, binding
`POLY → {b""}`), selecting the second node issues exactly the expected
unsubscribe/subscribe pair, commits it, and notifies. -/
theorem actnode_selection_witness :
    (actnode c1State (some [83, 2, 2, 2, 130])).2.1 =
      expectedSwitchActs c1State [83, 2, 2, 2, 130] ∧
    ((actnode c1State (some [83, 2, 2, 2, 130])).1).act_id =
      some [83, 2, 2, 2, 130] ∧
    (actnode c1State (some [83, 2, 2, 2, 130])).2.2.1 =
      some [83, 2, 2, 2, 130] :=
  actnode_selection_spec.2.2.2.2 c1State [83, 2, 2, 2, 130]
    (by decide) (by decide) (by decide) (by decide)

/-- Counterexample for C5 as stated: in `c5State` the topic `POLY` is in
the active-only registry and an active node is set; with identical
arguments `(topic = POLY, from_group = GROUPID_DEFAULT, to_group = b"")`
and identical state, `_subscribe` (with its default `actonly=False`)
resolves the from-group to `GROUPID_SIM` while `_unsubscribe` resolves
it to the active node's id, so the two keys differ. -/
theorem sub_unsub_key_counterexample :
    (subPriv c5State [80, 79, 76, 89] (GroupArg.int GROUPID_DEFAULT) [] false).2 ≠
    (unsubPriv c5State [80, 79, 76, 89] (GroupArg.int GROUPID_DEFAULT) []).2 := by
  decide

/-- **C5 (amended).** For identical arguments (topic, from_group,
to_group) and identical client state, the key built by `_subscribe`
equals the key built by the matching `_unsubscribe` **provided**
`from_group` is not the default group, or the subscribe call's
active-only flag agrees with whether the topic is present in the
active-only registry (the code resolves the from-group by `actonly` on
the subscribe side but by registry membership on the unsubscribe side);
whenever a key is issued it is `mkKey`: `to_group` left-justified to
`IDLEN` with the wildcard byte, followed by the topic bytes and the
resolved from-group bytes. -/
theorem sub_unsub_key_symmetry (st : ClientState) (topic : List Nat)
    (fg : GroupArg) (tg : List Nat) (actonly : Bool)
    (h : isDefaultGroup fg = false ∨
      actonly = st.acttopics.any (fun p => p.1 = topic)) :
    (subPriv st topic fg tg actonly).2 = (unsubPriv st topic fg tg).2 ∧
    (∀ k, (subPriv st topic fg tg actonly).2 = some k →
      ∃ fgb, k = mkKey tg topic fgb) := by
  constructor
  · by_cases hsock : st.sockRecv = true
    · rcases h with hfg | hao
      · simp [subPriv, unsubPriv, hsock, hfg]
      · subst hao
        cases hfg : isDefaultGroup fg
        · simp [subPriv, unsubPriv, hsock, hfg]
        · cases hmem : st.acttopics.any (fun p => p.1 = topic)
          · simp [subPriv, unsubPriv, hsock, hfg, hmem]
          · cases hid : st.act_id <;>
              simp [subPriv, unsubPriv, hsock, hfg, hmem, hid]
    · have hsf : st.sockRecv = false := by
        revert hsock; cases st.sockRecv <;> simp
      simp [subPriv, unsubPriv, hsf]
  · intro k hk
    by_cases hsock : st.sockRecv = true
    · cases hfg : isDefaultGroup fg
      · simp [subPriv, hsock, hfg] at hk
        exact ⟨asbytestr fg, hk.symm⟩
      · cases hao2 : actonly
        · simp [subPriv, hsock, hfg, hao2] at hk
          exact ⟨[GROUPID_SIM], hk.symm⟩
        · cases hid : st.act_id with
          | none => simp [subPriv, hsock, hfg, hao2, hid] at hk
          | some a =>
            simp [subPriv, hsock, hfg, hao2, hid] at hk
            exact ⟨a, hk.symm⟩
    · have hsf : st.sockRecv = false := by
        revert hsock; cases st.sockRecv <;> simp
      simp [subPriv, hsf] at hk

/-- Witness for C5 (amended): with the active-only flag agreeing with
registry membership, subscribe and unsubscribe build the same key in
`c5State`. -/
theorem sub_unsub_key_symmetry_witness :
    (subPriv c5State [80, 79, 76, 89] (GroupArg.int 0) [] true).2 =
    (unsubPriv c5State [80, 79, 76, 89] (GroupArg.int 0) []).2 :=
  (sub_unsub_key_symmetry c5State [80, 79, 76, 89] (GroupArg.int 0) [] true
    (Or.inr (by decide))).1

/-- **C2.** For any node, after any polygon (or polyline) insertion that
makes that node's stored shape count exceed 5, the oldest-inserted
entries are evicted until exactly 5 remain — the retained entries are
exactly the final 5 of the merged insertion order (its suffix); in
particular, inserting 7 distinctly named polygons one at a time leaves
exactly the 5 most recently inserted. -/
theorem shape_eviction :
    (∀ (store new : List (String × Nat)) (isReset : Bool),
      5 < (mergedPolys store new isReset).length →
      (onPolyStore store new isReset).length = 5 ∧
      onPolyStore store new isReset =
        (mergedPolys store new isReset).drop
          ((mergedPolys store new isReset).length - 5) ∧
      (onPolyStore store new isReset) <:+ mergedPolys store new isReset) ∧
    sevenPolyInserts = [("C", 3), ("D", 4), ("E", 5), ("F", 6), ("G", 7)] := by
  constructor
  · intro store new isReset h
    refine ⟨?_, ?_, ?_⟩
    · unfold onPolyStore applyShapeLimit
      rw [if_pos h, List.length_drop]
      omega
    · unfold onPolyStore applyShapeLimit
      rw [if_pos h]
    · unfold onPolyStore applyShapeLimit
      rw [if_pos h]
      exact List.drop_suffix _ _
  · decide

/-- Witness for C2: a 6-entry store plus one fresh insertion exceeds the
limit, so exactly the last 5 merged entries remain. -/
theorem shape_eviction_witness :
    (onPolyStore [("A", 1), ("B", 2), ("C", 3), ("D", 4), ("E", 5), ("F", 6)]
        [("G", 7)] false).length = 5 ∧
    onPolyStore [("A", 1), ("B", 2), ("C", 3), ("D", 4), ("E", 5), ("F", 6)]
        [("G", 7)] false =
      (mergedPolys [("A", 1), ("B", 2), ("C", 3), ("D", 4), ("E", 5), ("F", 6)]
        [("G", 7)] false).drop
        ((mergedPolys [("A", 1), ("B", 2), ("C", 3), ("D", 4), ("E", 5), ("F", 6)]
          [("G", 7)] false).length - 5) ∧
    (onPolyStore [("A", 1), ("B", 2), ("C", 3), ("D", 4), ("E", 5), ("F", 6)]
        [("G", 7)] false) <:+
      mergedPolys [("A", 1), ("B", 2), ("C", 3), ("D", 4), ("E", 5), ("F", 6)]
        [("G", 7)] false :=
  shape_eviction.1 [("A", 1), ("B", 2), ("C", 3), ("D", 4), ("E", 5), ("F", 6)]
    [("G", 7)] false (by decide)

/-- **C9.** The safe active-node accessor returns an identifier only
when the proxy is running, was connected, has at least one tracked
node, and the (truthy) active id's hex form is present in the
tracked-node set; in every other state it returns `none` (the statement
below is exactly that implication — whenever a value is returned, all
the conditions hold, so any state violating one of them yields
`none`). -/
theorem safe_active_node_spec (st : SafeNodeState) (a : String)
    (h : getSafeActiveNode st = some a) :
    st.running = true ∧ st.was_connected = true ∧ st.tracked_nodes ≠ [] ∧
    a ∈ st.tracked_nodes ∧
    ∃ raw, st.client = some (some raw) ∧ a = bytesHex raw := by
  cases hc : st.client with
  | none => simp [getSafeActiveNode, hc] at h
  | some act =>
    simp only [getSafeActiveNode, hc] at h
    by_cases hcond : (st.running = false ∨ st.was_connected = false ∨
        st.tracked_nodes.length = 0 ∨ actIdFalsy act = true)
    · rw [if_pos hcond] at h; cases h
    · rw [if_neg hcond] at h
      push_neg at hcond
      obtain ⟨h1, h2, h3, _h4⟩ := hcond
      cases act with
      | none => simp at h
      | some raw =>
        by_cases hm : bytesHex raw ∈ st.tracked_nodes
        · simp [hm] at h
          subst h
          refine ⟨?_, ?_, ?_, hm, raw, rfl, rfl⟩
          · revert h1; cases st.running <;> simp
          · revert h2; cases st.was_connected <;> simp
          · intro hnil
            exact h3 (by rw [hnil]; rfl)
        · simp [hm] at h

/-- Witness for C9: a running, connected state with one tracked node
whose id matches the active id. -/
theorem safe_active_node_witness :
    c9State.running = true ∧ c9State.was_connected = true ∧
    c9State.tracked_nodes ≠ [] ∧ "5301020381" ∈ c9State.tracked_nodes ∧
    ∃ raw, c9State.client = some (some raw) ∧ "5301020381" = bytesHex raw :=
  safe_active_node_spec c9State "5301020381" (by decide)

/-- **C7.** For every data frame on the echo topic, the dispatched
callback receives exactly the triple `(text, flags, senderIdentity)`,
per payload shape: a sequence of 3 or more elements is passed as-is, a
2-element sequence gets the frame's sender appended, a 1-element
sequence gets flags 0 and the frame's sender appended, a mapping
supplies text/flags/sender with missing flags defaulting to 0 and
missing sender defaulting to the frame's sender, and any other payload
is delivered as its string form with flags 0 and the frame's sender. -/
theorem echo_payload_normalization :
    (∀ (l : List MpVal) (s : List Nat), 3 ≤ l.length →
      echoDispatch (.list l) s = l.map EmitArg.val) ∧
    (∀ (a b : MpVal) (s : List Nat),
      echoDispatch (.list [a, b]) s = [.val a, .val b, .bytes s]) ∧
    (∀ (a : MpVal) (s : List Nat),
      echoDispatch (.list [a]) s = [.val a, .val (.int 0), .bytes s]) ∧
    (∀ (entries : List (String × MpVal)) (s : List Nat), ∃ t fl sd,
      echoDispatch (.map entries) s = [.val t, .val fl, sd] ∧
      t = (pyDictGet entries "text").getD (.str "") ∧
      (pyDictGet entries "flags" = none → fl = .int 0) ∧
      (∀ v, pyDictGet entries "flags" = some v → fl = v) ∧
      (pyDictGet entries "sender_id" = none → sd = .bytes s) ∧
      (∀ v, pyDictGet entries "sender_id" = some v → sd = .val v)) ∧
    (∀ (t : String) (s : List Nat),
      echoDispatch (.str t) s = [.val (.str t), .val (.int 0), .bytes s]) ∧
    (∀ (n : Int) (s : List Nat),
      echoDispatch (.int n) s =
        [.val (.str (toString n)), .val (.int 0), .bytes s]) ∧
    (∀ (b : Bool) (s : List Nat),
      echoDispatch (.bool b) s =
        [.val (.str (if b then "True" else "False")), .val (.int 0), .bytes s]) ∧
    (∀ s : List Nat,
      echoDispatch .nil s = [.val (.str "None"), .val (.int 0), .bytes s]) := by
  refine ⟨?_, fun a b s => rfl, fun a s => rfl, ?_, fun t s => rfl,
    fun n s => rfl, fun b s => rfl, fun s => rfl⟩
  · intro l s h3
    match l with
    | [] => simp at h3
    | [a] => simp at h3
    | [a, b] => simp at h3
    | a :: b :: c :: rest => rfl
  · intro entries s
    cases hs : pyDictGet entries "sender_id" with
    | none =>
      refine ⟨(pyDictGet entries "text").getD (.str ""),
        (pyDictGet entries "flags").getD (.int 0), .bytes s,
        ?_, rfl, ?_, ?_, ?_, ?_⟩
      · simp [echoDispatch, hs]
      · intro hf; rw [hf]; rfl
      · intro v hf; rw [hf]; rfl
      · intro _; rfl
      · intro v hv; cases hv
    | some w =>
      refine ⟨(pyDictGet entries "text").getD (.str ""),
        (pyDictGet entries "flags").getD (.int 0), .val w,
        ?_, rfl, ?_, ?_, ?_, ?_⟩
      · simp [echoDispatch, hs]
      · intro hf; rw [hf]; rfl
      · intro v hf; rw [hf]; rfl
      · intro hnone; cases hnone
      · intro v hv
        injection hv with hv
        rw [hv]

/-- Witness for C7: a 3-element echo sequence is dispatched as-is. -/
theorem echo_payload_normalization_witness :
    echoDispatch (.list [.str "hi", .int 4, .str "node"]) [9] =
      ([MpVal.str "hi", MpVal.int 4, MpVal.str "node"]).map EmitArg.val :=
  echo_payload_normalization.1 [.str "hi", .int 4, .str "node"] [9]
    (by simp)

/-- Accumulator form of the `signalEmit` fold. -/
theorem signalEmit_acc {α T E : Type} (x : α)
    (cbs : List (α → List T × Option E)) (acc : List T) :
    cbs.foldl (fun a cb => a ++ (cb x).1) acc = acc ++ signalEmit cbs x := by
  induction cbs generalizing acc with
  | nil => simp [signalEmit]
  | cons c cs ih =>
    have h2 : signalEmit (c :: cs) x = (c x).1 ++ signalEmit cs x := by
      show List.foldl (fun a cb => a ++ (cb x).1) [] (c :: cs) = _
      rw [List.foldl_cons, List.nil_append, ih ((c x).1)]
    rw [List.foldl_cons, ih (acc ++ (c x).1), h2, List.append_assoc]

/-- **C10.** For every per-topic dispatch (`BlueSkySubscriber.emit`) and
every discovery-signal emission (`BlueSkySignal.emit`), an exception
raised by one registered callback is caught and never propagates to the
dispatcher — the dispatch result is a total function that does not
depend on the raised error `e` at all — and the remaining callbacks
registered for the same topic or signal are still invoked in
registration order: the effects of the callbacks before the faulty one,
its own effects up to the raise, and the effects of every callback after
it appear in order. -/
theorem callback_exception_isolation :
    (∀ (α T E : Type) (pre post : List (α → List T × Option E))
       (f : α → List T) (e : α → Option E) (x : α),
      signalEmit (pre ++ (fun a => (f a, e a)) :: post) x =
        signalEmit pre x ++ f x ++ signalEmit post x) ∧
    (∀ (α T E : Type)
       (subs : List (String × List (α → List T × Option E)))
       (topic : String) (pre post : List (α → List T × Option E))
       (f : α → List T) (e : α → Option E) (x : α),
      subs.find? (fun p => p.1 = topic) =
        some (topic, pre ++ (fun a => (f a, e a)) :: post) →
      subscriberEmit subs topic x =
        signalEmit pre x ++ f x ++ signalEmit post x) := by
  have key : ∀ (α T E : Type) (pre post : List (α → List T × Option E))
      (f : α → List T) (e : α → Option E) (x : α),
      signalEmit (pre ++ (fun a => (f a, e a)) :: post) x =
        signalEmit pre x ++ f x ++ signalEmit post x := by
    intro α T E pre post f e x
    have hcons : signalEmit ((fun a => (f a, e a)) :: post) x =
        f x ++ signalEmit post x := by
      show List.foldl (fun acc cb => acc ++ (cb x).1) []
        ((fun a => (f a, e a)) :: post) = _
      rw [List.foldl_cons, List.nil_append]
      exact signalEmit_acc x post (f x)
    have hstep := signalEmit_acc x ((fun a => (f a, e a)) :: post)
      (signalEmit pre x)
    show List.foldl (fun acc cb => acc ++ (cb x).1) []
      (pre ++ (fun a => (f a, e a)) :: post) = _
    rw [List.foldl_append]
    have hall : List.foldl (fun acc cb => acc ++ (cb x).1)
        (signalEmit pre x) ((fun a => (f a, e a)) :: post) =
        signalEmit pre x ++ f x ++ signalEmit post x := by
      rw [hstep, hcons, List.append_assoc]
    exact hall
  refine ⟨key, ?_⟩
  intro α T E subs topic pre post f e x hfind
  unfold subscriberEmit
  rw [hfind]
  exact key α T E pre post f e x

/-- Witness for C10: in a two-callback topic list whose first callback
raises after producing `[5]`, the second callback still runs and its
effect follows in order. -/
theorem callback_exception_isolation_witness :
    subscriberEmit
      [("ECHO", [fun a => ([a], some "boom"),
                 fun a => ([a + 1], (none : Option String))])]
      "ECHO" (5 : Nat) = [5, 6] := by
  have h := callback_exception_isolation.2 Nat Nat String
    [("ECHO", [fun a => ([a], some "boom"),
               fun a => ([a + 1], (none : Option String))])]
    "ECHO" [] [fun a => ([a + 1], (none : Option String))]
    (fun a => [a]) (fun _ => some "boom") 5 rfl
  simpa [signalEmit] using h

/-- Accumulator form of the enqueue fold of `stackCmd`. -/
theorem stackCmd_foldl_aux (l : List String) (q : List String) :
    l.foldl (fun acc line => acc ++ [pyStrip line]) q =
      q ++ l.map (fun line => pyStrip line) := by
  induction l generalizing q with
  | nil => simp
  | cons a as ih =>
    rw [List.foldl_cons, ih (q ++ [pyStrip a])]
    simp [List.append_assoc]

/-- Counterexample for C8 as stated: submitting `"HELP;;CRE KL123"`
queues the empty entry `""` between the two commands; that entry has no
uppercased first word in the local set, yet the drain neither forwards
it nor echoes — it is silently skipped, contradicting "every other entry
is forwarded". -/
theorem command_forwarding_counterexample :
    stackCmd [] "HELP;;CRE KL123" = ["HELP", "", "CRE KL123"] ∧
    processEntry none [67, 0, 0, 0, 128] "" = [] ∧
    ([] : List CmdAction) ≠
      [CmdAction.forwardCmd (resolveTarget none [67, 0, 0, 0, 128]) ""] := by
  refine ⟨by decide, by decide, by simp⟩

/-- **C8 (amended).** Submitting a command line splits it on `;` into
individual entries queued in order; during the drain, every entry whose
uppercased first word is in the built-in local set (`HELP`, `?`) is
executed locally and always emits exactly one echo; every other entry
**containing at least one word** is forwarded unchanged to the active
node (falling back to the default server address when no active node is
truthy) with no local echo; entries with no words (empty or
whitespace-only) are skipped with no action. -/
theorem command_stack_drain :
    (∀ (q : List String) (s : String), stackCmd q s = q ++ stackSplit s) ∧
    (∀ (act : Option (List Nat)) (srv : List Nat) (entry c : String)
       (args : List String),
      pyWords (pyStrip entry) = c :: args →
      (pyUpper c = "HELP" ∨ pyUpper c = "?") →
      ∃ t, processEntry act srv entry = [CmdAction.echo t 0] ∧ t ≠ "") ∧
    (∀ (act : Option (List Nat)) (srv : List Nat) (entry c : String)
       (args : List String),
      pyWords (pyStrip entry) = c :: args →
      ¬(pyUpper c = "HELP" ∨ pyUpper c = "?") →
      processEntry act srv entry =
        [CmdAction.forwardCmd (resolveTarget act srv) entry]) ∧
    (∀ (srv : List Nat) (b : Nat) (bs : List Nat),
      resolveTarget (some (b :: bs)) srv = b :: bs ∧
      resolveTarget none srv = srv ∧ resolveTarget (some []) srv = srv) ∧
    (∀ (act : Option (List Nat)) (srv : List Nat) (entry : String),
      pyWords (pyStrip entry) = [] → processEntry act srv entry = []) := by
  refine ⟨?_, ?_, ?_, fun srv b bs => ⟨rfl, rfl, rfl⟩, ?_⟩
  · intro q s
    unfold stackCmd stackSplit
    by_cases hb : pyStrip s = ""
    · simp [hb]
    · simp only [hb, if_false]
      exact stackCmd_foldl_aux _ q
  · intro act srv entry c args hw hc
    have hnodef : ∀ (x : String),
        "Help for " ++ x ++ ": Command forwarded to server" ≠ "" := by
      intro x h
      have hlen := congrArg String.length h
      simp [String.length_append] at hlen
      exact absurd hlen.2 (by decide)
    unfold processEntry
    rw [hw]
    simp only [hc, if_true, executeLocalCommand]
    by_cases ha : joinSpace args = ""
    · simp [ha]
    · simp [ha, hnodef]
  · intro act srv entry c args hw hc
    unfold processEntry
    rw [hw]
    simp only [hc, if_false]
  · intro act srv entry hw
    unfold processEntry
    rw [hw]

/-- Witness for C8 (amended): `HELP` echoes exactly once, `CRE KL123`
is forwarded unchanged to the fallback server address, and a blank entry
is skipped. -/
theorem command_stack_drain_witness :
    stackCmd [] "HELP;CRE KL123" = [] ++ stackSplit "HELP;CRE KL123" ∧
    (∃ t, processEntry none [67, 0, 0, 0, 128] "HELP" =
      [CmdAction.echo t 0] ∧ t ≠ "") ∧
    processEntry none [67, 0, 0, 0, 128] "CRE KL123" =
      [CmdAction.forwardCmd (resolveTarget none [67, 0, 0, 0, 128]) "CRE KL123"] ∧
    processEntry none [67, 0, 0, 0, 128] "  " = [] :=
  ⟨command_stack_drain.1 [] "HELP;CRE KL123",
   command_stack_drain.2.1 none [67, 0, 0, 0, 128] "HELP" "HELP" []
     (by decide) (Or.inl (by decide)),
   command_stack_drain.2.2.1 none [67, 0, 0, 0, 128] "CRE KL123" "CRE" ["KL123"]
     (by decide) (by decide),
   command_stack_drain.2.2.2.2 none [67, 0, 0, 0, 128] "  " (by decide)⟩

/-- **C6.** For every decoded telemetry-summary (SIMINFO) or
traffic-table (ACDATA) value received while connected, the cached
snapshot for that topic is always updated, but the value is pushed to
the event channel only if at least the topic's minimum interval has
elapsed since that topic's last push (the last-push timestamp then
advances); command-echo messages bypass throttling and are emitted to
consumers immediately on receipt.  (The ACDATA statement is about the
data path; a frame arriving under a reset/act-change dispatch context
takes the snapshot-clearing path instead, per §4.5 of the spec.) -/
theorem fanout_snapshot_and_throttling :
    (∀ (st : FanoutState) (i : SimInfoIn) (sender : String) (now : Nat),
      st.allow_reconnection = true →
      (onSiminfoReceived st i sender now).1.sim_data =
        some (mkSimData i (some sender)) ∧
      (∀ s, FanEvent.siminfo s ∈ (onSiminfoReceived st i sender now).2 →
        st.last_siminfo_emit + st.siminfo_interval ≤ now ∧
        (onSiminfoReceived st i sender now).1.last_siminfo_emit = now)) ∧
    (∀ (st : FanoutState) (a : Option String) (d : Nat) (now : Nat),
      st.allow_reconnection = true →
      ¬(st.clientPresent = true ∧ (a = some "RESET" ∨ a = some "ACTCHANGE")) →
      (onAcdataReceived st a d now).1.traffic_data =
        some (TrafficSnapshot.val d) ∧
      (∀ t, FanEvent.acdata t ∈ (onAcdataReceived st a d now).2 →
        st.last_acdata_emit + st.acdata_interval ≤ now ∧
        (onAcdataReceived st a d now).1.last_acdata_emit = now)) ∧
    (∀ (st : FanoutState) (text : Option String) (flags : Option Int)
       (sender : Option String) (now : Nat),
      st.allow_reconnection = true →
      (onEchoReceived st text flags sender now).1.echo_data =
        some (mkEchoData text flags sender now) ∧
      (st.socketio = true → 0 < st.connected_clients →
        (onEchoReceived st text flags sender now).2 =
          [FanEvent.echoEv (mkEchoData text flags sender now)])) := by
  refine ⟨?_, ?_, ?_⟩
  · intro st i sender now hallow
    have hna : ¬ st.allow_reconnection = false := by rw [hallow]; simp
    unfold onSiminfoReceived
    by_cases hemit : st.socketio = true ∧ 0 < st.connected_clients ∧
        st.last_siminfo_emit + st.siminfo_interval ≤ now
    · constructor
      · simp [hna, hemit]
      · intro s hs
        refine ⟨hemit.2.2, ?_⟩
        simp [hna, hemit]
    · constructor
      · simp [hna, hemit]
      · intro s hs
        exfalso
        simp only [hna, if_false, hemit] at hs
        by_cases hn : sender ≠ "" ∧ sender ∈ st.tracked_nodes ∧
            (i.simt.getD 0) % 5 = 0 ∧ st.socketio = true ∧
            0 < st.connected_clients <;> simp [hn] at hs
  · intro st a d now hallow hctx
    have hna : ¬ st.allow_reconnection = false := by rw [hallow]; simp
    unfold onAcdataReceived
    by_cases hemit : st.socketio = true ∧ 0 < st.connected_clients ∧
        st.last_acdata_emit + st.acdata_interval ≤ now
    · constructor
      · simp [hna, hctx, hemit]
      · intro t ht
        refine ⟨hemit.2.2, ?_⟩
        simp [hna, hctx, hemit]
    · constructor
      · simp [hna, hctx, hemit]
      · intro t ht
        exfalso
        simp [hna, hctx, hemit] at ht
  · intro st text flags sender now hallow
    have hna : ¬ st.allow_reconnection = false := by rw [hallow]; simp
    constructor
    · unfold onEchoReceived
      by_cases hcl : st.socketio = true ∧ 0 < st.connected_clients <;>
        simp [hna, hcl]
    · intro hsock hcl
      unfold onEchoReceived
      simp [hna, hsock, hcl]

/-- Witness for C6: with one connected consumer and elapsed intervals,
a SIMINFO frame updates the snapshot, a (non-reset) ACDATA frame updates
the traffic cache, and an echo is emitted immediately. -/
theorem fanout_snapshot_and_throttling_witness :
    (onSiminfoReceived c6State c6Sim "ab" 5).1.sim_data =
      some (mkSimData c6Sim (some "ab")) ∧
    (onAcdataReceived c6State none 7 5).1.traffic_data =
      some (TrafficSnapshot.val 7) ∧
    (onEchoReceived c6State (some "ok") none none 5).2 =
      [FanEvent.echoEv (mkEchoData (some "ok") none none 5)] :=
  ⟨(fanout_snapshot_and_throttling.1 c6State c6Sim "ab" 5 rfl).1,
   (fanout_snapshot_and_throttling.2.1 c6State none 7 5 rfl (by simp)).1,
   (fanout_snapshot_and_throttling.2.2 c6State (some "ok") none none 5 rfl).2
     rfl (by decide)⟩

/-- **C3.** Whenever the proxy was previously connected and either no
tracked nodes remain past the connection timeout (on a normal tick) or
one more transport failure makes the consecutive-failure count exceed
the maximum, the poll tick transitions to disconnected: it marks the
connection unhealthy (`was_connected := False`), clears the tracked
node and server sets, clears all cached snapshots (traffic, sim, echo,
per-node polygon and polyline stores), emits a
`connection_status(False)` disconnect notification to the attached
consumers, clears the client's active-node reference, closes the
protocol client, stops running, and schedules no further poll tick. -/
theorem disconnect_on_failure_or_silence (st : ProxyState) (now : Nat)
    (raised : Bool)
    (hrun : st.running = true) (hallow : st.allow_reconnection = true)
    (hclient : st.clientPresent = true) (hconn : st.was_connected = true)
    (hsock : st.socketio = true) (hclients : 0 < st.connected_clients)
    (hcond : (raised = true ∧
        st.max_connection_failures < st.connection_failures + 1) ∨
      (raised = false ∧ st.tracked_nodes = [] ∧
        st.connection_timeout + st.last_successful_update < now)) :
    (networkTick st now raised).1.was_connected = false ∧
    (networkTick st now raised).1.tracked_nodes = [] ∧
    (networkTick st now raised).1.tracked_servers = [] ∧
    (networkTick st now raised).1.traffic_data = none ∧
    (networkTick st now raised).1.sim_data = none ∧
    (networkTick st now raised).1.echo_data = none ∧
    (networkTick st now raised).1.poly_data_by_node = [] ∧
    (networkTick st now raised).1.polyline_data_by_node = [] ∧
    (networkTick st now raised).1.clientActId = none ∧
    (networkTick st now raised).1.clientOpen = false ∧
    (networkTick st now raised).1.running = false ∧
    (networkTick st now raised).1.allow_reconnection = false ∧
    ProxyEvent.connStatus false ∈ (networkTick st now raised).2.1 ∧
    (networkTick st now raised).2.2 = false := by
  rcases hcond with ⟨hr, hm⟩ | ⟨hr, hnodes, htime⟩
  · subst hr
    have hge : st.max_connection_failures ≤ st.connection_failures + 1 :=
      Nat.le_of_lt hm
    simp [networkTick, handleDisconnection, connClose, emitConnectionStatus,
      hrun, hallow, hclient, hconn, hsock, hclients, hge]
  · subst hr
    simp [networkTick, handleDisconnection, connClose, emitConnectionStatus,
      hrun, hallow, hclient, hconn, hsock, hclients, hnodes, htime]

/-- Witness for C3 (spec scenario C): with the default threshold 3 and
three prior consecutive failures, a fourth transport failure makes the
tick disconnect, clear everything, notify, close the client, and stop
scheduling. -/
theorem disconnect_on_failure_or_silence_witness :
    (networkTick c3State 5 true).1.was_connected = false ∧
    (networkTick c3State 5 true).1.tracked_nodes = [] ∧
    (networkTick c3State 5 true).1.tracked_servers = [] ∧
    (networkTick c3State 5 true).1.traffic_data = none ∧
    (networkTick c3State 5 true).1.sim_data = none ∧
    (networkTick c3State 5 true).1.echo_data = none ∧
    (networkTick c3State 5 true).1.poly_data_by_node = [] ∧
    (networkTick c3State 5 true).1.polyline_data_by_node = [] ∧
    (networkTick c3State 5 true).1.clientActId = none ∧
    (networkTick c3State 5 true).1.clientOpen = false ∧
    (networkTick c3State 5 true).1.running = false ∧
    (networkTick c3State 5 true).1.allow_reconnection = false ∧
    ProxyEvent.connStatus false ∈ (networkTick c3State 5 true).2.1 ∧
    (networkTick c3State 5 true).2.2 = false :=
  disconnect_on_failure_or_silence c3State 5 true rfl rfl rfl rfl rfl
    (by decide) (Or.inl ⟨rfl, by decide⟩)
